import Mathlib

/-!
Verification development for the long-recording transcription orchestrator
(`src/routes/long_recording.py`, `src/services/chunk_management.py`,
`src/services/chunk_processor.py`).

The Python code is shallowly embedded: sessions and segments become Lean
structures, Python dicts become association lists with dict-update semantics,
and the external effects (file system, ffmpeg, transcription and enhancement
backends) become explicit parameters of the embedded functions.  Statuses are
kept as the string literals the code uses.
-/

namespace STGT

instance {ε α : Type} [DecidableEq ε] [DecidableEq α] : DecidableEq (Except ε α)
  | Except.ok a, Except.ok b =>
      match decEq a b with
      | isTrue h => isTrue (h ▸ rfl)
      | isFalse h => isFalse (fun hc => h (Except.ok.inj hc))
  | Except.ok _, Except.error _ => isFalse (fun hc => Except.noConfusion hc)
  | Except.error _, Except.ok _ => isFalse (fun hc => Except.noConfusion hc)
  | Except.error e, Except.error f =>
      match decEq e f with
      | isTrue h => isTrue (h ▸ rfl)
      | isFalse h => isFalse (fun hc => h (Except.error.inj hc))

/-- Python's `str.isspace` characters relevant to `str.strip()`. -/
def isPySpace (c : Char) : Bool :=
  c == ' ' || c == '\t' || c == '\n' || c == '\r' ||
  c == Char.ofNat 11 || c == Char.ofNat 12

/-- Python `s.strip()`: drop leading and trailing whitespace. -/
def pyStrip (s : String) : String :=
  String.mk (((s.data.dropWhile isPySpace).reverse.dropWhile isPySpace).reverse)

/-! ### Association-list model of Python dicts keyed by segment number -/

/-- Python `d[k] = v` on a dict: replace in place if the key is present,
otherwise append (preserving insertion order, as Python dicts do). -/
def dictInsert {α : Type} (k : Nat) (v : α) (l : List (Nat × α)) : List (Nat × α) :=
  if l.any (fun p => p.1 == k) then
    l.map (fun p => if p.1 == k then (k, v) else p)
  else
    l ++ [(k, v)]

/-- Python `d.get(k)` on a dict. -/
def dictGet {α : Type} (k : Nat) (l : List (Nat × α)) : Option α :=
  (l.find? (fun p => p.1 == k)).map Prod.snd

theorem dictGet_map_replace {α : Type} (k : Nat) (v : α) :
    ∀ l : List (Nat × α), l.any (fun p => p.1 == k) = true →
      dictGet k (l.map (fun p => if p.1 == k then (k, v) else p)) = some v := by
  intro l
  induction l with
  | nil => intro h; simp at h
  | cons p t ih =>
    intro h
    by_cases hp : p.1 = k
    · simp [dictGet, List.find?, hp]
    · have hp' : (p.1 == k) = false := by simp [hp]
      simp only [List.any_cons, hp', Bool.false_or] at h
      simp only [List.map_cons, hp', if_false]
      simpa [dictGet, List.find?, hp'] using ih h

theorem dictGet_append_single {α : Type} (k : Nat) (v : α) (l : List (Nat × α))
    (h : l.any (fun p => p.1 == k) = false) :
    dictGet k (l ++ [(k, v)]) = some v := by
  have hfind : l.find? (fun p => p.1 == k) = none := by
    rw [List.find?_eq_none]
    intro p hp
    intro hbeq
    have : l.any (fun p => p.1 == k) = true := List.any_of_mem hp hbeq
    rw [h] at this
    exact Bool.noConfusion this
  simp [dictGet, List.find?_append, hfind, List.find?]

/-- Updating a key that is present yields that value on lookup. -/
theorem dictGet_dictInsert_self {α : Type} (k : Nat) (v : α) (l : List (Nat × α)) :
    dictGet k (dictInsert k v l) = some v := by
  unfold dictInsert
  by_cases h : l.any (fun p => p.1 == k) = true
  · rw [if_pos h]; exact dictGet_map_replace k v l h
  · have h' : l.any (fun p => p.1 == k) = false := by
      cases hb : l.any (fun p => p.1 == k) with
      | true => exact absurd hb h
      | false => rfl
    rw [if_neg (by simp [h'])]
    exact dictGet_append_single k v l h'

/-! ### Ordering segments by segment number -/

/-- Comparison of dict entries by their numeric key (segment / sequence
number); used to model Python `sorted(..., key=...)` over dict items. -/
def seqLE {α : Type} (a b : Nat × α) : Prop := a.1 ≤ b.1

/-- Strict version of `seqLE`, total on entries with distinct keys. -/
def seqLT {α : Type} (a b : Nat × α) : Prop := a.1 < b.1

instance {α : Type} : DecidableRel (@seqLE α) := fun a b => Nat.decLe a.1 b.1

instance {α : Type} : IsTotal (Nat × α) seqLE := ⟨fun a b => Nat.le_total a.1 b.1⟩

instance {α : Type} : IsTrans (Nat × α) seqLE := ⟨fun _ _ _ => Nat.le_trans⟩

instance {α : Type} : IsAntisymm (Nat × α) seqLT :=
  ⟨fun _ _ h1 h2 => absurd h1 (Nat.lt_asymm h2)⟩

/-- Python `sorted(entries, key=segment number)`. -/
def sortBySeq {α : Type} (l : List (Nat × α)) : List (Nat × α) :=
  List.insertionSort seqLE l

theorem sortBySeq_perm {α : Type} (l : List (Nat × α)) : (sortBySeq l).Perm l :=
  List.perm_insertionSort seqLE l

/-- Two permutations of the same entries with pairwise-distinct keys sort to
the same list: sorting erases insertion / completion order. -/
theorem sortBySeq_eq_of_perm {α : Type} (l₁ l₂ : List (Nat × α))
    (hnd : (l₁.map Prod.fst).Nodup) (hp : l₁.Perm l₂) :
    sortBySeq l₁ = sortBySeq l₂ := by
  have hperm : (sortBySeq l₁).Perm (sortBySeq l₂) :=
    ((sortBySeq_perm l₁).trans hp).trans (sortBySeq_perm l₂).symm
  have hnd₁ : ((sortBySeq l₁).map Prod.fst).Nodup :=
    (((sortBySeq_perm l₁).map Prod.fst).nodup_iff).mpr hnd
  have hnd₂ : ((sortBySeq l₂).map Prod.fst).Nodup := by
    refine ((hperm.map Prod.fst).nodup_iff).mp hnd₁
  have hs₁ : (sortBySeq l₁).Sorted seqLE := List.sorted_insertionSort seqLE l₁
  have hs₂ : (sortBySeq l₂).Sorted seqLE := List.sorted_insertionSort seqLE l₂
  have strict : ∀ m : List (Nat × α), m.Sorted seqLE → (m.map Prod.fst).Nodup →
      m.Sorted seqLT := by
    intro m hle hnd
    have hne : m.Pairwise (fun a b : Nat × α => a.1 ≠ b.1) :=
      List.pairwise_map.mp hnd
    exact (hle.and hne).imp (fun h => Nat.lt_of_le_of_ne h.1 h.2)
  exact List.eq_of_perm_of_sorted hperm (strict _ hs₁ hnd₁) (strict _ hs₂ hnd₂)

/-- `ChunkProcessor._assemble_results`: order the per-segment transcripts by
sequence number ascending and join them with a single space. -/
def assembleTranscript (results : List (Nat × String)) : String :=
  String.intercalate " " ((sortBySeq results).map Prod.snd)

theorem assembleTranscript_eq_of_perm (l₁ l₂ : List (Nat × String))
    (hnd : (l₁.map Prod.fst).Nodup) (hp : l₁.Perm l₂) :
    assembleTranscript l₁ = assembleTranscript l₂ := by
  unfold assembleTranscript
  rw [sortBySeq_eq_of_perm l₁ l₂ hnd hp]

/-! ### Data model of `src/routes/long_recording.py` -/

/-- `SegmentInfo.__init__`: per-segment state (the segment number is the
association-list key). -/
structure SegmentInfo where
  filepath : String
  wav_path : Option String
  status : String
  transcription : Option String
  error : Option String
deriving Repr, DecidableEq

/-- `RecordingSession.__init__` (configuration values are modelled as
strings, matching the JSON payloads the routes receive). -/
structure RecordingSession where
  config : List (String × String)
  segments : List (Nat × SegmentInfo)
  status : String
  error : Option String
  combined_text : String
  enhanced_text : Option String
deriving Repr, DecidableEq

/-- A Python value returned by a transcription backend: `None`, a `str`, or
a value of some other type (the three cases `process_segment` validates). -/
inductive PyVal where
  | vnone : PyVal
  | vstr : String → PyVal
  | vother : PyVal
deriving Repr, DecidableEq

/-- The segment-transcription validity check used both by `process_segment`
(lines 191–197) and by `enhance_session` (lines 358–368): present, a string,
and non-empty after trimming whitespace. -/
def validTrans : Option String → Bool
  | none => false
  | some t => !(pyStrip t == "")

/-- The `all_completed` condition of `process_segment` lines 191–197. -/
def allSegsCompleted (segs : List (Nat × SegmentInfo)) : Bool :=
  segs.all (fun p => p.2.status == "completed" && validTrans p.2.transcription)

/-- Python `input_path.rsplit(".", 1)[0]`: everything before the last dot. -/
def stripLastExt (s : String) : String :=
  let parts := s.splitOn "."
  if parts.length ≤ 1 then s else String.intercalate "." parts.dropLast

/-- `convert_to_wav` with the external effects (ffmpeg exit code, whether the
output file appeared) as parameters.  The error strings stand in for Python's
`str(e)` on the raised exceptions; what matters for the claims is that they
are non-empty and carry the failure. -/
def convert_to_wav (input_path : String) (ffmpegReturncode : Int)
    (wavExists : Bool) : Except String String :=
  let output_path := stripLastExt input_path ++ ".wav"
  if ffmpegReturncode ≠ 0 then
    Except.error ("Command ffmpeg returned non-zero exit status " ++
      toString ffmpegReturncode ++ ".")
  else if !wavExists then
    Except.error ("FFmpeg did not create output file: " ++ output_path)
  else
    Except.ok output_path

/-- Everything `process_segment` produces: the updated session, the returned
value or raised exception, the sequence of statuses assigned to the segment,
how many times the converter and the transcription backend were invoked, and
which language code was handed to the backend. -/
structure ProcOutcome where
  session : RecordingSession
  result : Except String String
  statusTrace : List String
  convCalls : Nat
  transcribeCalls : Nat
  transcribeLang : Option String
deriving Repr

/-- The `except` handler of `process_segment` (lines 205–210): the segment —
with whatever mutations already happened — gets status `error` and the
message, the session status is untouched, and the exception propagates. -/
def segErrOutcome (s : RecordingSession) (n : Nat) (seg : SegmentInfo)
    (msg : String) (trace : List String) (cc tc : Nat) (lang : Option String) :
    ProcOutcome :=
  let seg' := { seg with status := "error", error := some msg }
  { session := { s with segments := dictInsert n seg' s.segments }
    result := Except.error msg
    statusTrace := trace ++ ["error"]
    convCalls := cc
    transcribeCalls := tc
    transcribeLang := lang }

/-- `process_segment(session_id, segment_number)` (lines 123–210), with the
session passed by value and the external effects as parameters:
`fileExists`/`fileSize` describe the raw upload, `ffmpegReturncode` and
`wavExists` the converter run, and `transResult` what the selected
transcription backend returned. -/
def process_segment (s : RecordingSession) (n : Nat)
    (fileExists : Bool) (fileSize : Nat)
    (ffmpegReturncode : Int) (wavExists : Bool)
    (transResult : PyVal) : ProcOutcome :=
  match dictGet n s.segments with
  | none =>
      { session := s
        result := Except.error ("Segment " ++ toString n ++ " not found")
        statusTrace := []
        convCalls := 0
        transcribeCalls := 0
        transcribeLang := none }
  | some seg0 =>
    let seg1 := { seg0 with status := "converting" }
    if !fileExists then
      segErrOutcome s n seg1 ("Audio file not found: " ++ seg1.filepath)
        ["converting"] 0 0 none
    else if fileSize == 0 then
      segErrOutcome s n seg1 ("Audio file is empty: " ++ seg1.filepath)
        ["converting"] 0 0 none
    else
      match convert_to_wav seg1.filepath ffmpegReturncode wavExists with
      | Except.error msg =>
          segErrOutcome s n seg1 msg ["converting"] 1 0 none
      | Except.ok wav =>
        let seg2 := { seg1 with wav_path := some wav }
        match s.config.lookup "transcription_model" with
        | none =>
            segErrOutcome s n seg2 "KeyError: transcription_model"
              ["converting"] 1 0 none
        | some _tm =>
          let seg3 := { seg2 with status := "transcribing" }
          match s.config.lookup "source_language" with
          | none =>
              segErrOutcome s n seg3 "KeyError: source_language"
                ["converting", "transcribing"] 1 0 none
          | some lang =>
            match transResult with
            | PyVal.vnone =>
                segErrOutcome s n seg3 "Transcription service returned None"
                  ["converting", "transcribing"] 1 1 (some lang)
            | PyVal.vother =>
                segErrOutcome s n seg3 "Invalid transcription type"
                  ["converting", "transcribing"] 1 1 (some lang)
            | PyVal.vstr t =>
              if pyStrip t == "" then
                segErrOutcome s n seg3 "Transcription is empty"
                  ["converting", "transcribing"] 1 1 (some lang)
              else
                let seg4 := { seg3 with transcription := some t, status := "completed" }
                let segments' := dictInsert n seg4 s.segments
                let status' :=
                  if allSegsCompleted segments' then "ready_for_enhancement"
                  else s.status
                { session := { s with segments := segments', status := status' }
                  result := Except.ok t
                  statusTrace := ["converting", "transcribing", "completed"]
                  convCalls := 1
                  transcribeCalls := 1
                  transcribeLang := some lang }

/-- Registration of a freshly uploaded segment, `process_segment_route`
lines 286–288: a new `SegmentInfo` is stored under its number; nothing else
on the session changes. -/
def addSegment (s : RecordingSession) (n : Nat) (fp : String) : RecordingSession :=
  { s with
    segments := dictInsert n
      { filepath := fp, wav_path := none, status := "uploaded",
        transcription := none, error := none } s.segments }

/-- `normalize_config`'s `key_mapping` dict (lines 214–220).  Note that
`sourceLanguage` is absent from the mapping. -/
def key_mapping (k : String) : String :=
  if k == "audioSource" then "audio_source"
  else if k == "targetLanguage" then "target_language"
  else if k == "outputType" then "output_type"
  else if k == "transcriptionModel" then "transcription_model"
  else if k == "enhancementModel" then "enhancement_model"
  else k

/-- `normalize_config(config)` (lines 212–221). -/
def normalize_config (config : List (String × String)) : List (String × String) :=
  config.map (fun p => (key_mapping p.1, p.2))

/-- The missing-fields gate of `process_segment_route` (lines 243–252),
after `segment_number` has gone through `int(...)`.  Returns the list of
field names reported missing in the 400 response, or `none` when the check
passes.  Truthiness is Python's: `0` and `""` are falsy. -/
def missing_fields_check (session_id : Option String) (segment_number : Int)
    (audio_present : Bool) : Option (List String) :=
  let sidTruthy : Bool := match session_id with
    | none => false
    | some s => !(s == "")
  let numTruthy : Bool := !(segment_number == 0)
  if sidTruthy && numTruthy && audio_present then none
  else some
    ((if !sidTruthy then ["session_id"] else []) ++
     (if !numTruthy then ["segment_number"] else []) ++
     (if !audio_present then ["audio_file"] else []))

/-- The combined text computed by `enhance_session` lines 353–379: sort the
segments by number, keep the valid ones, join their transcriptions with a
single space. -/
def combinedTextOf (s : RecordingSession) : String :=
  String.intercalate " "
    (((sortBySeq s.segments).filter (fun p => validTrans p.2.transcription)).map
      (fun p => p.2.transcription.getD ""))

/-- The JSON body `enhance_session` returns on success. -/
structure EnhanceResp where
  enhanced_text : String
  total : Nat
  valid : Nat
deriving Repr, DecidableEq

/-- Outcome of `enhance_session`: updated session, response or raised error,
and how many times the enhancement backend was invoked. -/
structure EnhanceOutcome where
  session : RecordingSession
  result : Except String EnhanceResp
  backendCalls : Nat
deriving Repr

/-- `enhance_session(session_id)` (lines 336–421) with the session passed by
value and the enhancement backend's answer as a parameter.  The three config
lookups (`enhancement_model`, `target_language`, `output_type`) happen after
the validity checks and before any mutation, so a missing key raises without
touching state. -/
def enhance_session (s : RecordingSession) (backendResult : String) :
    EnhanceOutcome :=
  let sorted := sortBySeq s.segments
  let valid := sorted.filter (fun p => validTrans p.2.transcription)
  if valid.isEmpty then
    { session := s
      result := Except.error "No valid transcriptions found in any segment"
      backendCalls := 0 }
  else
    let combined := String.intercalate " "
      (valid.map (fun p => p.2.transcription.getD ""))
    if pyStrip combined == "" then
      { session := s
        result := Except.error "Combined transcription text is empty"
        backendCalls := 0 }
    else
      match s.config.lookup "enhancement_model", s.config.lookup "target_language",
          s.config.lookup "output_type" with
      | some _, some _, some _ =>
          { session := { s with enhanced_text := some backendResult,
                                status := "completed" }
            result := Except.ok
              { enhanced_text := backendResult
                total := s.segments.length
                valid := valid.length }
            backendCalls := 1 }
      | _, _, _ =>
          { session := s
            result := Except.error "KeyError"
            backendCalls := 0 }

/-- The JSON body of `get_status` (lines 323–330).  Python's float division
is modelled with exact rationals. -/
structure StatusResponse where
  status : String
  total_segments : Nat
  processed_segments : Nat
  progress_percentage : ℚ
  combined_text : Option String
  error : Option String
deriving Repr, DecidableEq

/-- `get_status(session_id)` (lines 309–330) for an existing session. -/
def get_status (s : RecordingSession) : StatusResponse :=
  let total := s.segments.length
  let processed := (s.segments.filter (fun p => p.2.status == "completed")).length
  { status := s.status
    total_segments := total
    processed_segments := processed
    progress_percentage :=
      if 0 < total then ((processed : ℚ) / (total : ℚ)) * 100 else 0
    combined_text := if s.status == "completed" then some s.combined_text else none
    error := s.error }

/-! ### Model of `src/services/chunk_management.py` and `chunk_processor.py` -/

/-- The chunk-info dict built by `ChunkManager.store_chunk` (lines 76–85),
minus the timestamps.  `sequence` is the chunk's metadata sequence number. -/
structure ChunkInfo where
  id : String
  sequence : Nat
  processed : Bool
  processing_attempts : Nat
  error : Option String
  result : Option String
deriving Repr, DecidableEq

/-- The session dict built by `ChunkManager.create_session` (lines 41–49),
minus the timestamps; `errors` keeps `(chunk_id, error)` pairs. -/
structure ChunkSession where
  chunks : List ChunkInfo
  status : String
  processed_chunks : Nat
  total_chunks : Nat
  current_phase : String
  errors : List (String × String)
  result : Option String
deriving Repr, DecidableEq

/-- `ChunkManager.get_unprocessed_chunks` (lines 212–227): chunks not yet
marked processed and with fewer than 3 recorded processing attempts. -/
def get_unprocessed_chunks (s : ChunkSession) : List ChunkInfo :=
  s.chunks.filter (fun c => !c.processed && c.processing_attempts < 3)

/-- `ChunkManager.mark_chunk_processed` (lines 125–147). -/
def mark_chunk_processed (s : ChunkSession) (cid : String) (res : String) :
    ChunkSession :=
  if s.chunks.any (fun c => c.id == cid) then
    let chunks' := s.chunks.map
      (fun c => if c.id == cid then { c with processed := true, result := some res }
                else c)
    let pc := s.processed_chunks + 1
    { s with chunks := chunks'
             processed_chunks := pc
             current_phase := if pc == s.total_chunks then "completed"
                              else s.current_phase }
  else s

/-- `ChunkManager.mark_chunk_failed` (lines 149–170): increments the chunk's
attempt counter and appends to the session error log.  (Defined here because
the spec's batch step 4 names it; `ChunkProcessor.process_session` never
calls it.) -/
def mark_chunk_failed (s : ChunkSession) (cid : String) (err : String) :
    ChunkSession :=
  if s.chunks.any (fun c => c.id == cid) then
    let chunks' := s.chunks.map
      (fun c => if c.id == cid then
          { c with error := some err,
                   processing_attempts := c.processing_attempts + 1 }
        else c)
    { s with chunks := chunks', errors := s.errors ++ [(cid, err)] }
  else s

/-- `ChunkManager.get_session_progress` (lines 172–194), minus timestamps. -/
structure ProgressResponse where
  status : String
  current_phase : String
  processed_chunks : Nat
  total_chunks : Nat
  progress_percentage : ℚ
  errors : List (String × String)
deriving Repr, DecidableEq

/-- `get_session_progress(session_id)` over the manager's session table. -/
def get_session_progress (sessions : List (String × ChunkSession))
    (sid : String) : Except String ProgressResponse :=
  match sessions.lookup sid with
  | none => Except.error ("Session " ++ sid ++ " not found")
  | some s =>
      Except.ok
        { status := s.status
          current_phase := s.current_phase
          processed_chunks := s.processed_chunks
          total_chunks := s.total_chunks
          progress_percentage :=
            ((s.processed_chunks : ℚ) / ((max s.total_chunks 1 : Nat) : ℚ)) * 100
          errors := s.errors }

/-- The dict `ChunkProcessor.process_session` returns. -/
structure BatchResult where
  status : String
  failed_chunks : List (String × String)
  processed_chunks : Nat
  result : Option String
deriving Repr, DecidableEq

/-- One completed worker of `ChunkProcessor.process_session` (lines 62–82):
on success record the transcript and mark the chunk processed; on failure
append to `failed_chunks` — and nothing else: `mark_chunk_failed` is not
invoked, so neither the attempt counter nor the session error log moves. -/
def batchStep (outcome : Nat → Except String String)
    (acc : ChunkSession × List (Nat × String) × List (String × String))
    (c : ChunkInfo) :
    ChunkSession × List (Nat × String) × List (String × String) :=
  match outcome c.sequence with
  | Except.ok t =>
      (mark_chunk_processed acc.1 c.id t, acc.2.1 ++ [(c.sequence, t)], acc.2.2)
  | Except.error e =>
      (acc.1, acc.2.1, acc.2.2 ++ [(c.id, e)])

/-- `ChunkProcessor.process_session` (lines 27–108) with each chunk's worker
outcome supplied by `outcome` (keyed by sequence number).  Workers complete
in arbitrary order in the code; the per-chunk updates commute, so the fold
over the sorted dispatch list yields the same final state. -/
def process_session (s : ChunkSession) (outcome : Nat → Except String String) :
    ChunkSession × BatchResult :=
  let s0 := { s with status := "processing" }
  let chunks := List.insertionSort
    (fun a b : ChunkInfo => a.sequence ≤ b.sequence) (get_unprocessed_chunks s0)
  let folded := chunks.foldl (batchStep outcome) (s0, [], [])
  let sess := folded.1
  let results := folded.2.1
  let failed := folded.2.2
  if !failed.isEmpty then
    ({ sess with status := "partial_failure" },
     { status := "partial_failure"
       failed_chunks := failed
       processed_chunks := results.length
       result := none })
  else
    let final := assembleTranscript results
    ({ sess with status := "completed", result := some final },
     { status := "success"
       failed_chunks := []
       processed_chunks := results.length
       result := some final })

/-! ### Concrete sample data used by witnesses and counterexamples -/

/-- A freshly uploaded segment. -/
def sampleSeg : SegmentInfo :=
  { filepath := "a.webm", wav_path := none, status := "uploaded",
    transcription := none, error := none }

/-- A fully processed segment with a valid transcription. -/
def doneSeg (t : String) : SegmentInfo :=
  { filepath := "a.webm", wav_path := some "a.wav", status := "completed",
    transcription := some t, error := none }

/-- A session configuration in which every key the pipeline reads is
present (snake_case, as `process_segment` expects). -/
def sampleConfig : List (String × String) :=
  [("source_language", "it"), ("target_language", "en"),
   ("output_type", "text"), ("transcription_model", "local"),
   ("enhancement_model", "local")]

/-- A recording session holding one freshly uploaded segment. -/
def sampleSession : RecordingSession :=
  { config := sampleConfig, segments := [(0, sampleSeg)],
    status := "recording", error := none, combined_text := "",
    enhanced_text := none }

/-- A session whose single segment 0 completed, and whose status was set to
`ready_for_enhancement` by `process_segment`. -/
def readySession : RecordingSession :=
  { config := sampleConfig, segments := [(0, doneSeg "ciao")],
    status := "ready_for_enhancement", error := none, combined_text := "",
    enhanced_text := none }

/-- The session of the spec's reordering example: segments 0, 2, 1 inserted
in that dict order, all completed. -/
def exampleSession : RecordingSession :=
  { config := sampleConfig
    segments := [(0, doneSeg "Buongiorno"), (2, doneSeg "come stai"),
                 (1, doneSeg "a tutti")]
    status := "ready_for_enhancement", error := none, combined_text := "",
    enhanced_text := none }

/-- The two chunks of the C3 batch scenario. -/
def chunkA : ChunkInfo :=
  { id := "s_0", sequence := 0, processed := false, processing_attempts := 0,
    error := none, result := none }

/-- Second chunk of the C3 batch scenario (its worker fails). -/
def chunkB : ChunkInfo :=
  { id := "s_1", sequence := 1, processed := false, processing_attempts := 0,
    error := none, result := none }

/-- A chunk whose three processing attempts are exhausted. -/
def exhaustedChunk : ChunkInfo :=
  { id := "s_2", sequence := 2, processed := false, processing_attempts := 3,
    error := some "boom", result := none }

/-- The chunk-manager session for the C3 batch scenario. -/
def batchSession : ChunkSession :=
  { chunks := [chunkA, chunkB], status := "recording", processed_chunks := 0,
    total_chunks := 2, current_phase := "recording", errors := [],
    result := none }

/-- Worker outcomes of the C3 batch scenario: chunk 0 succeeds, chunk 1
raises. -/
def batchOutcome : Nat → Except String String :=
  fun n => if n == 0 then Except.ok "ciao" else Except.error "boom"

/-- A chunk-manager session holding one fresh chunk and one exhausted one. -/
def c9Session : ChunkSession :=
  { chunks := [chunkA, exhaustedChunk], status := "recording",
    processed_chunks := 0, total_chunks := 2, current_phase := "recording",
    errors := [], result := none }

/-- A recording session with zero registered segments. -/
def emptySession : RecordingSession :=
  { config := sampleConfig, segments := [], status := "recording",
    error := none, combined_text := "", enhanced_text := none }

/-- A chunk-manager session with zero chunks. -/
def emptyChunkSession : ChunkSession :=
  { chunks := [], status := "recording", processed_chunks := 0,
    total_chunks := 0, current_phase := "recording", errors := [],
    result := none }

/-- A one-entry chunk-manager session table. -/
def c10Sessions : List (String × ChunkSession) :=
  [("sid0", emptyChunkSession)]

/-- Appending to a non-empty string never yields the empty string. -/
theorem str_append_ne_empty (s t : String) (h : s ≠ "") : s ++ t ≠ "" := by
  intro hc
  apply h
  have hl := congrArg String.length hc
  rw [String.length_append] at hl
  have hz : s.length = 0 := by
    have : String.length "" = 0 := rfl
    omega
  cases s with
  | mk data =>
    have hd : data = [] := List.length_eq_zero.mp hz
    rw [hd]

/-! ### Claim theorems -/

/-- Claim C1: for every session and every set of (segmentNumber, transcript)
pairs with distinct segment numbers, the assembled combined text is the
transcripts joined with a single space in ascending segment-number order and
depends only on the set of pairs, not on submission or completion order; the
example session with segments 0 ↦ "Buongiorno", 2 ↦ "come stai",
1 ↦ "a tutti" inserted in order 0,2,1 yields
"Buongiorno a tutti come stai". -/
theorem c1_assembly_order_independent :
    (∀ l₁ l₂ : List (Nat × String), (l₁.map Prod.fst).Nodup → l₁.Perm l₂ →
        assembleTranscript l₁ = assembleTranscript l₂) ∧
    combinedTextOf exampleSession = "Buongiorno a tutti come stai" ∧
    assembleTranscript [(0, "Buongiorno"), (2, "come stai"), (1, "a tutti")] =
      "Buongiorno a tutti come stai" :=
  ⟨assembleTranscript_eq_of_perm, by decide, by decide⟩

/-- Witness for C1: assembling the example pairs in two different submission
orders gives the same combined text. -/
theorem c1_assembly_order_independent_witness :
    assembleTranscript [(0, "Buongiorno"), (2, "come stai"), (1, "a tutti")] =
      assembleTranscript [(1, "a tutti"), (0, "Buongiorno"), (2, "come stai")] :=
  c1_assembly_order_independent.1 _ _ (by decide) (by decide)

/-- Claim C2 (amended): after a segment-processing step the session status is
`ready_for_enhancement` iff it already was before the step, or the step
succeeded and every registered segment is completed with a non-empty
validated transcript; registering a new segment never changes the session
status, so it does not revert an already-ready session. -/
theorem c2_readiness_recheck :
    (∀ (s : RecordingSession) (n : Nat) (fe : Bool) (fsz : Nat) (rc : Int)
        (we : Bool) (tr : PyVal),
      ((process_segment s n fe fsz rc we tr).session.status =
          "ready_for_enhancement" ↔
        s.status = "ready_for_enhancement" ∨
          ((∃ t, (process_segment s n fe fsz rc we tr).result = Except.ok t) ∧
            allSegsCompleted
              (process_segment s n fe fsz rc we tr).session.segments = true))) ∧
    (∀ (s : RecordingSession) (m : Nat) (fp : String),
      (addSegment s m fp).status = s.status) := by
  constructor
  · intro s n fe fsz rc we tr
    simp only [process_segment]
    cases hget : dictGet n s.segments with
    | none => simp
    | some seg0 =>
      cases fe with
      | false => simp [segErrOutcome]
      | true =>
        by_cases hfs : fsz = 0
        · simp [hfs, segErrOutcome]
        · have hfs' : (fsz == 0) = false := by simp [hfs]
          simp only [hfs', Bool.not_true, Bool.false_eq_true, if_false,
            Bool.not_false, if_true]
          cases hconv : convert_to_wav
              { seg0 with status := "converting" }.filepath rc we with
          | error msg => simp [segErrOutcome]
          | ok wav =>
            cases hlm : s.config.lookup "transcription_model" with
            | none => simp [segErrOutcome]
            | some tm =>
              cases hsl : s.config.lookup "source_language" with
              | none => simp [segErrOutcome]
              | some lang =>
                cases tr with
                | vnone => simp [segErrOutcome]
                | vother => simp [segErrOutcome]
                | vstr t =>
                  by_cases ht : pyStrip t = ""
                  · simp [ht, segErrOutcome]
                  · have ht' : (pyStrip t == "") = false := by simp [ht]
                    simp only [ht', Bool.false_eq_true, if_false]
                    split
                    · rename_i hac
                      simp [hac]
                    · rename_i hac
                      simp [hac]
  · intro s m fp
    rfl

/-- Counterexample to C2 as stated: registering segment 1 on a session whose
status is already `ready_for_enhancement` leaves the status unchanged even
though the new segment is merely `uploaded`, so readiness is not reverted. -/
theorem c2_no_revert_counterexample :
    (addSegment readySession 1 "b.webm").status = "ready_for_enhancement" ∧
    dictGet 1 (addSegment readySession 1 "b.webm").segments =
      some { filepath := "b.webm", wav_path := none, status := "uploaded",
             transcription := none, error := none } ∧
    allSegsCompleted (addSegment readySession 1 "b.webm").segments = false := by
  decide

/-- Claim C3, evaluated at the failing input: a batch over chunks 0 (worker
succeeds) and 1 (worker raises) returns status `partial_failure` with the
failed chunk listed and one success counted, but the failed chunk's
`processing_attempts` counter is still 0 — `mark_chunk_failed` is never
invoked by `process_session` — while calling `mark_chunk_failed` itself
would have incremented it to 1. -/
theorem c3_attempts_not_incremented :
    (process_session batchSession batchOutcome).2 =
      { status := "partial_failure", failed_chunks := [("s_1", "boom")],
        processed_chunks := 1, result := none } ∧
    (process_session batchSession batchOutcome).1.chunks =
      [{ chunkA with processed := true, result := some "ciao" }, chunkB] ∧
    chunkB.processing_attempts = 0 ∧
    (process_session batchSession batchOutcome).1.errors = [] ∧
    (process_session batchSession batchOutcome).1.status = "partial_failure" ∧
    ((mark_chunk_failed batchSession "s_1" "boom").chunks.map
        ChunkInfo.processing_attempts) = [0, 1] := by
  decide

/-- The normalized configuration of a session created with the documented
camelCase keys, `sourceLanguage` included. -/
def c4Config : List (String × String) :=
  normalize_config
    [("sourceLanguage", "it"), ("targetLanguage", "en"), ("outputType", "text"),
     ("transcriptionModel", "local"), ("enhancementModel", "local")]

/-- A session created from `c4Config` holding one uploaded segment. -/
def c4Session : RecordingSession :=
  { config := c4Config, segments := [(0, sampleSeg)], status := "recording",
    error := none, combined_text := "", enhanced_text := none }

/-- Claim C4, evaluated at the failing input: `normalize_config` maps every
documented camelCase key except `sourceLanguage`, so the stored config has
`sourceLanguage` but not the `source_language` key `process_segment` reads;
processing a segment with healthy externals then raises the `KeyError`
before the transcription backend is ever invoked, so the configured value
is never passed as the language code. -/
theorem c4_source_language_never_forwarded :
    c4Config.lookup "sourceLanguage" = some "it" ∧
    c4Config.lookup "source_language" = none ∧
    c4Config.lookup "transcription_model" = some "local" ∧
    (process_segment c4Session 0 true 5 0 true (PyVal.vstr "ciao")).transcribeCalls
      = 0 ∧
    (process_segment c4Session 0 true 5 0 true (PyVal.vstr "ciao")).transcribeLang
      = none ∧
    (process_segment c4Session 0 true 5 0 true (PyVal.vstr "ciao")).result =
      Except.error "KeyError: source_language" ∧
    (dictGet 0 (process_segment c4Session 0 true 5 0 true
        (PyVal.vstr "ciao")).session.segments).map SegmentInfo.status =
      some "error" := by
  decide

/-- Claim C5, evaluated at the failing input: a submission with an existing
session id, the non-negative segment number 0 and an audio file present is
nonetheless rejected by the missing-fields gate (Python `all` treats the
integer 0 as falsy), reporting `segment_number` as missing, while the same
request with segment number 1 or 7 passes the gate. -/
theorem c5_segment_zero_rejected :
    missing_fields_check (some "abc123") 0 true = some ["segment_number"] ∧
    missing_fields_check (some "abc123") 1 true = none ∧
    missing_fields_check (some "abc123") 7 true = none := by
  decide

/-- Claim C6: for every segment whose converter step fails (non-zero ffmpeg
exit or missing output), the segment never reaches status `transcribing`;
it ends in status `error` with a non-empty error message carrying the
underlying failure, the converter was invoked exactly once (no internal
retry), and the transcription backend was never invoked. -/
theorem c6_converter_failure_no_transcribing
    (s : RecordingSession) (n : Nat) (seg : SegmentInfo) (fsz : Nat)
    (rc : Int) (we : Bool) (tr : PyVal)
    (hseg : dictGet n s.segments = some seg) (hfsz : fsz ≠ 0)
    (hfail : rc ≠ 0 ∨ we = false) :
    "transcribing" ∉ (process_segment s n true fsz rc we tr).statusTrace ∧
    (∃ m, m ≠ "" ∧
      dictGet n (process_segment s n true fsz rc we tr).session.segments =
        some { seg with status := "error", error := some m } ∧
      (process_segment s n true fsz rc we tr).result = Except.error m) ∧
    (process_segment s n true fsz rc we tr).convCalls = 1 ∧
    (process_segment s n true fsz rc we tr).transcribeCalls = 0 := by
  have hfs' : (fsz == 0) = false := by simp [hfsz]
  have hmsg : ∃ m, m ≠ "" ∧ convert_to_wav seg.filepath rc we = Except.error m := by
    rcases hfail with hrc | hwe
    · refine ⟨"Command ffmpeg returned non-zero exit status " ++
        toString rc ++ ".", ?_, ?_⟩
      · exact str_append_ne_empty _ _
          (str_append_ne_empty _ _ (by decide))
      · simp [convert_to_wav, hrc]
    · by_cases hrc : rc = 0
      · refine ⟨"FFmpeg did not create output file: " ++
          (stripLastExt seg.filepath ++ ".wav"), ?_, ?_⟩
        · exact str_append_ne_empty _ _ (by decide)
        · simp [convert_to_wav, hrc, hwe]
      · refine ⟨"Command ffmpeg returned non-zero exit status " ++
          toString rc ++ ".", ?_, ?_⟩
        · exact str_append_ne_empty _ _
            (str_append_ne_empty _ _ (by decide))
        · simp [convert_to_wav, hrc]
  rcases hmsg with ⟨m, hm, hconv⟩
  simp only [process_segment, hseg]
  have hconv' : convert_to_wav { seg with status := "converting" }.filepath rc we =
      Except.error m := hconv
  simp only [hfs', Bool.not_true, Bool.false_eq_true, if_false, Bool.not_false,
    if_true, hconv']
  refine ⟨by simp [segErrOutcome], ⟨m, hm, ?_, rfl⟩, rfl, rfl⟩
  simp [segErrOutcome, dictGet_dictInsert_self]

/-- Witness for C6: concrete run on `sampleSession` with ffmpeg exiting 1. -/
theorem c6_converter_failure_no_transcribing_witness :
    "transcribing" ∉
        (process_segment sampleSession 0 true 5 1 true PyVal.vnone).statusTrace ∧
    (∃ m, m ≠ "" ∧
      dictGet 0 (process_segment sampleSession 0 true 5 1 true
          PyVal.vnone).session.segments =
        some { sampleSeg with status := "error", error := some m } ∧
      (process_segment sampleSession 0 true 5 1 true PyVal.vnone).result =
        Except.error m) ∧
    (process_segment sampleSession 0 true 5 1 true PyVal.vnone).convCalls = 1 ∧
    (process_segment sampleSession 0 true 5 1 true PyVal.vnone).transcribeCalls
      = 0 :=
  c6_converter_failure_no_transcribing sampleSession 0 sampleSeg 5 1 true
    PyVal.vnone (by decide) (by decide) (Or.inl (by decide))

/-- Claim C7: enhancing a session in which no segment has a valid
transcription raises the no-valid-segments error and mutates nothing: the
session (statuses, enhanced text, everything) is returned unchanged and the
enhancement backend is never invoked. -/
theorem c7_enhance_no_valid_segments
    (s : RecordingSession) (backend : String)
    (h : ∀ p ∈ s.segments, validTrans p.2.transcription = false) :
    enhance_session s backend =
      { session := s
        result := Except.error "No valid transcriptions found in any segment"
        backendCalls := 0 } := by
  have hfilter :
      (sortBySeq s.segments).filter (fun p => validTrans p.2.transcription) = [] := by
    rw [List.filter_eq_nil_iff]
    intro p hp
    have hmem : p ∈ s.segments := (sortBySeq_perm s.segments).subset hp
    simp [h p hmem]
  simp only [enhance_session, hfilter]
  rfl

/-- Witness for C7: a session whose only segment has no transcription. -/
theorem c7_enhance_no_valid_segments_witness :
    enhance_session sampleSession "X" =
      { session := sampleSession
        result := Except.error "No valid transcriptions found in any segment"
        backendCalls := 0 } :=
  c7_enhance_no_valid_segments sampleSession "X" (by decide)

/-- Claim C8: a backend result is stored as the segment's transcription with
status `completed` exactly when it is present, of text type and non-empty
after stripping; any other result (None, non-string, whitespace-only) leaves
the transcription unchanged and puts the segment in `error` with the call
raising, never producing a successful empty transcript. -/
theorem c8_transcription_validation
    (s : RecordingSession) (n : Nat) (seg : SegmentInfo) (fsz : Nat)
    (tr : PyVal) (tm lang : String)
    (hseg : dictGet n s.segments = some seg) (hfsz : fsz ≠ 0)
    (htm : s.config.lookup "transcription_model" = some tm)
    (hlang : s.config.lookup "source_language" = some lang) :
    (∀ t, tr = PyVal.vstr t → pyStrip t ≠ "" →
      (process_segment s n true fsz 0 true tr).result = Except.ok t ∧
      dictGet n (process_segment s n true fsz 0 true tr).session.segments =
        some { seg with
          status := "completed"
          wav_path := some (stripLastExt seg.filepath ++ ".wav")
          transcription := some t }) ∧
    ((tr = PyVal.vnone ∨ tr = PyVal.vother ∨
        ∃ t, tr = PyVal.vstr t ∧ pyStrip t = "") →
      (∃ m, (process_segment s n true fsz 0 true tr).result = Except.error m) ∧
      ∃ seg2,
        dictGet n (process_segment s n true fsz 0 true tr).session.segments =
          some seg2 ∧
        seg2.status = "error" ∧ seg2.transcription = seg.transcription) := by
  have hfs' : (fsz == 0) = false := by simp [hfsz]
  have hconv : convert_to_wav { seg with status := "converting" }.filepath 0 true =
      Except.ok (stripLastExt seg.filepath ++ ".wav") := by
    simp [convert_to_wav]
  constructor
  · intro t htr ht
    subst htr
    have ht' : (pyStrip t == "") = false := by simp [ht]
    simp only [process_segment, hseg, hfs', Bool.not_true, Bool.false_eq_true,
      if_false, Bool.not_false, if_true, hconv, htm, hlang, ht']
    exact ⟨by simp, by simp [dictGet_dictInsert_self]⟩
  · intro hbad
    simp only [process_segment, hseg, hfs', Bool.not_true, Bool.false_eq_true,
      if_false, Bool.not_false, if_true, hconv, htm, hlang]
    rcases hbad with htr | htr | ⟨t, htr, ht⟩
    · subst htr
      refine ⟨⟨"Transcription service returned None", rfl⟩,
        ⟨{ seg with
            wav_path := some (stripLastExt seg.filepath ++ ".wav")
            status := "error"
            error := some "Transcription service returned None" }, ?_, rfl, rfl⟩⟩
      simp [segErrOutcome, dictGet_dictInsert_self]
    · subst htr
      refine ⟨⟨"Invalid transcription type", rfl⟩,
        ⟨{ seg with
            wav_path := some (stripLastExt seg.filepath ++ ".wav")
            status := "error"
            error := some "Invalid transcription type" }, ?_, rfl, rfl⟩⟩
      simp [segErrOutcome, dictGet_dictInsert_self]
    · subst htr
      have ht' : (pyStrip t == "") = true := by simp [ht]
      simp only [ht', if_true]
      refine ⟨⟨"Transcription is empty", rfl⟩,
        ⟨{ seg with
            wav_path := some (stripLastExt seg.filepath ++ ".wav")
            status := "error"
            error := some "Transcription is empty" }, ?_, rfl, rfl⟩⟩
      simp [segErrOutcome, dictGet_dictInsert_self]

/-- Witness for C8: both directions at concrete inputs — a valid result
"ciao" is stored and completed on `sampleSession`. -/
theorem c8_transcription_validation_witness :
    (∀ t, PyVal.vstr "ciao" = PyVal.vstr t → pyStrip t ≠ "" →
      (process_segment sampleSession 0 true 5 0 true
          (PyVal.vstr "ciao")).result = Except.ok t ∧
      dictGet 0 (process_segment sampleSession 0 true 5 0 true
          (PyVal.vstr "ciao")).session.segments =
        some { sampleSeg with
          status := "completed"
          wav_path := some (stripLastExt sampleSeg.filepath ++ ".wav")
          transcription := some t }) ∧
    ((PyVal.vstr "ciao" = PyVal.vnone ∨ PyVal.vstr "ciao" = PyVal.vother ∨
        ∃ t, PyVal.vstr "ciao" = PyVal.vstr t ∧ pyStrip t = "") →
      (∃ m, (process_segment sampleSession 0 true 5 0 true
          (PyVal.vstr "ciao")).result = Except.error m) ∧
      ∃ seg2,
        dictGet 0 (process_segment sampleSession 0 true 5 0 true
            (PyVal.vstr "ciao")).session.segments = some seg2 ∧
        seg2.status = "error" ∧ seg2.transcription = sampleSeg.transcription) :=
  c8_transcription_validation sampleSession 0 sampleSeg 5 (PyVal.vstr "ciao")
    "local" "it" (by decide) (by decide) (by decide) (by decide)

/-- Claim C9: the unprocessed-chunk listing returns exactly the chunks not
yet marked processed with fewer than 3 recorded attempts; a chunk with 3 or
more attempts is never returned. -/
theorem c9_unprocessed_listing (s : ChunkSession) (c : ChunkInfo) :
    (c ∈ get_unprocessed_chunks s ↔
      c ∈ s.chunks ∧ c.processed = false ∧ c.processing_attempts < 3) ∧
    (3 ≤ c.processing_attempts → c ∉ get_unprocessed_chunks s) := by
  have hiff : c ∈ get_unprocessed_chunks s ↔
      c ∈ s.chunks ∧ c.processed = false ∧ c.processing_attempts < 3 := by
    simp [get_unprocessed_chunks, List.mem_filter, Bool.and_eq_true,
      Bool.not_eq_true', decide_eq_true_eq]
  refine ⟨hiff, ?_⟩
  intro h3 hmem
  have := (hiff.mp hmem).2.2
  omega

/-- Witness for C9: the exhausted chunk (3 attempts) of `c9Session` is
excluded from the listing. -/
theorem c9_unprocessed_listing_witness :
    (exhaustedChunk ∈ get_unprocessed_chunks c9Session ↔
      exhaustedChunk ∈ c9Session.chunks ∧ exhaustedChunk.processed = false ∧
        exhaustedChunk.processing_attempts < 3) ∧
    (3 ≤ exhaustedChunk.processing_attempts →
      exhaustedChunk ∉ get_unprocessed_chunks c9Session) :=
  c9_unprocessed_listing c9Session exhaustedChunk

/-- Claim C10: for an existing session with zero registered segments the
status query reports progress percentage 0 (the division is guarded by the
zero check), and likewise the chunk-manager progress query succeeds with
percentage 0 (its denominator is clamped with `max total 1`). -/
theorem c10_zero_segments_progress
    (s : RecordingSession) (sessions : List (String × ChunkSession))
    (sid : String) (cs : ChunkSession)
    (hseg : s.segments = [])
    (hlook : sessions.lookup sid = some cs)
    (htot : cs.total_chunks = 0) (hproc : cs.processed_chunks = 0) :
    (get_status s).progress_percentage = 0 ∧
    get_session_progress sessions sid =
      Except.ok
        { status := cs.status
          current_phase := cs.current_phase
          processed_chunks := 0
          total_chunks := 0
          progress_percentage := 0
          errors := cs.errors } := by
  constructor
  · simp [get_status, hseg]
  · simp [get_session_progress, hlook, htot, hproc]

/-- Witness for C10: an empty recording session and an empty chunk-manager
session. -/
theorem c10_zero_segments_progress_witness :
    (get_status emptySession).progress_percentage = 0 ∧
    get_session_progress c10Sessions "sid0" =
      Except.ok
        { status := emptyChunkSession.status
          current_phase := emptyChunkSession.current_phase
          processed_chunks := 0
          total_chunks := 0
          progress_percentage := 0
          errors := emptyChunkSession.errors } :=
  c10_zero_segments_progress emptySession c10Sessions "sid0" emptyChunkSession
    rfl rfl rfl rfl

end STGT
